import Mathlib

/-!
Shallow embedding of the oxaut price-drop monitor bot
(source: src/monitor_oxaut.py).

Prices are modelled as rationals, timestamps as naturals (tick indices;
the drop-detection logic never inspects them).  The module-level mutable
globals (config, logged_on, history, last_price, update_counter) become an
explicit SessionState record; the Telegram handlers and the timer callback
become pure state-transition functions that additionally return the
messages they send, and for the timer callback the log-file lines it
appends.  The remote price fetch is an input of type Except String Rat.

One source fact matters throughout: the module-level deque bound to the
name history at line 45 is SHADOWED at import time by the command handler
def at line 181 (async def history), so everywhere the running program
says history it names that handler function, not the deque.  monitor_job
and logon below embed the behaviour this actually produces; the deque
data structure itself (appendH and the lemmas about it) is modelled
separately, as the History component the spec describes.
-/

namespace OxautMonitor

/-- A history sample: (timestamp, price), as appended by monitor_job. -/
abbrev Sample : Type := Nat × ℚ

/-- A triggered-window alert entry: (label, past_price, relative change),
as accumulated by check_drops. -/
abbrev Alert : Type := String × ℚ × ℚ

/-- STEPS_10S = 1 (source line 21). -/
def STEPS_10S : Nat := 1

/-- STEPS_30S = 3 (source line 22). -/
def STEPS_30S : Nat := 3

/-- STEPS_1MIN = 6 (source line 23). -/
def STEPS_1MIN : Nat := 6

/-- STEPS_5MIN = 30 (source line 24). -/
def STEPS_5MIN : Nat := 30

/-- HISTORY_MAXLEN = STEPS_5MIN + 2 (source line 26). -/
def HISTORY_MAXLEN : Nat := STEPS_5MIN + 2

/-- BotConfig (source lines 30-40): runtime policy. -/
structure BotConfig where
  drop_threshold : ℚ
  interval_seconds : Nat
  active_windows : List String
deriving DecidableEq

/-- BotConfig.__init__ defaults (source lines 31-34). -/
def BotConfig.init : BotConfig :=
  { drop_threshold := 1/4
    interval_seconds := 10
    active_windows := ["10s", "30s", "1min", "5min"] }

/-- BotConfig.update_threshold (source lines 36-40): returns True and
stores the new threshold when 0 < new_threshold <= 1, else returns False
leaving the config unchanged. -/
def update_threshold (new_threshold : ℚ) (c : BotConfig) : Bool × BotConfig :=
  if 0 < new_threshold ∧ new_threshold ≤ 1 then
    (true, { c with drop_threshold := new_threshold })
  else
    (false, c)

/-- The rolling history as a list, oldest first.  Appending mirrors
deque(maxlen=HISTORY_MAXLEN) (source line 45): when the buffer is full the
oldest sample is evicted. -/
def appendH (h : List Sample) (x : Sample) : List Sample :=
  if h.length < HISTORY_MAXLEN then h ++ [x] else h.drop 1 ++ [x]

/-- history[-(steps_back + 1)] guarded by the length check: the sample
steps_back positions before the most recent one, none if out of range. -/
def lookback (history : List Sample) (steps_back : Nat) : Option Sample :=
  history.reverse.get? steps_back

/-- The inner compare closure of check_drops (source lines 85-91),
with the alerts accumulator made explicit. -/
def compare (history : List Sample) (current_price : ℚ) (config : BotConfig)
    (alerts : List Alert) (step_back : Nat) (label : String) : List Alert :=
  if label ∈ config.active_windows ∧ step_back < history.length then
    match history.reverse.get? step_back with
    | some sample =>
        let past_price := sample.2
        if 0 < past_price then
          let change := (current_price - past_price) / past_price
          if change ≤ -config.drop_threshold then
            alerts ++ [(label, past_price, change)]
          else alerts
        else alerts
    | none => alerts
  else alerts

/-- check_drops (source lines 83-96): runs compare for the four windows in
order 10s, 30s, 1min, 5min, accumulating alerts.  The now argument is
passed but unused, as in the source. -/
def check_drops (history : List Sample) (_now : Nat) (current_price : ℚ)
    (config : BotConfig) : List Alert :=
  let a1 := compare history current_price config [] STEPS_10S "10s"
  let a2 := compare history current_price config a1 STEPS_30S "30s"
  let a3 := compare history current_price config a2 STEPS_1MIN "1min"
  compare history current_price config a3 STEPS_5MIN "5min"

/-- Outbound Telegram messages, by shape. -/
inductive Msg where
  | reply (text : String)
  | alert (now : Nat) (price : ℚ) (alerts : List Alert)
  | heartbeat (price : ℚ)
deriving DecidableEq

/-- The module-level mutable globals (source lines 42-47). -/
structure SessionState where
  config : BotConfig
  logged_on : Bool
  history : List Sample
  last_price : Option ℚ
  update_counter : Nat
deriving DecidableEq

/-- Initial global state (source lines 43-47). -/
def SessionState.init : SessionState :=
  { config := BotConfig.init
    logged_on := false
    history := []
    last_price := none
    update_counter := 0 }

/-- monitor_job (source lines 98-125): one timer tick.  Input: the
current time, the outcome of get_price_usd (ok price / error), and the
session state.  Output: the new state, the messages sent, and the log-file
lines appended.  If not logged_on it returns at once (lines 100-101); if
the fetch raises, the except branch at line 124 only prints a warning,
changing nothing.  On a SUCCESSFUL fetch the handler sets last_price
(line 105) and appends the log line (line 107), and then line 108's
history.append raises AttributeError — history names the shadowed handler
function, which has no append — caught by the same except at line 124:
no sample is ever appended, check_drops is never called, no alert or
heartbeat is ever sent, and update_counter is never incremented. -/
def monitor_job (now : Nat) (fetch : Except String ℚ) (s : SessionState) :
    SessionState × List Msg × List (Nat × ℚ) :=
  if s.logged_on = false then (s, [], [])
  else
    match fetch with
    | .error _ => (s, [], [])
    | .ok price =>
        ({ s with last_price := some price }, [], [(now, price)])

/-- logon (source lines 127-143): the start command.  Returns
(state, replies, timer armed, uncaught exception escaped).  If already
logged on it replies and returns (lines 130-132).  Otherwise it sets
logged_on := true (line 133) and then line 134's history.clear() raises
AttributeError on the shadowed handler name, BEFORE the try block at
line 135: the exception escapes the handler, the deque is not cleared,
the fetch is never consulted, no reply is sent, no timer is armed, and
logged_on is left True. -/
def logon (_fetch : Except String ℚ) (s : SessionState) :
    SessionState × List Msg × Bool × Bool :=
  if s.logged_on = true then (s, [Msg.reply "Ya estás logueado."], false, false)
  else ({ s with logged_on := true }, [], false, true)

/-- logoff (source lines 145-151): the stop command. -/
def logoff (s : SessionState) : SessionState × List Msg :=
  if s.logged_on = false then (s, [Msg.reply "No estás logueado."])
  else ({ s with logged_on := false }, [Msg.reply "Log desactivado."])

/-- Run monitor_job over a sequence of (timestamp, fetch outcome) ticks,
collecting the messages sent at each tick. -/
def runTicks : List (Nat × Except String ℚ) → SessionState →
    SessionState × List (List Msg)
  | [], s => (s, [])
  | (now, f) :: rest, s =>
      let step := monitor_job now f s
      let tail := runTicks rest step.1
      (tail.1, step.2.1 :: tail.2)

/-- The spec scenario: successful fetches of 100, 100, 100, 100, 70 at
ticks 0 through 4. -/
def scenarioInputs : List (Nat × Except String ℚ) :=
  [(0, .ok 100), (1, .ok 100), (2, .ok 100), (3, .ok 100), (4, .ok 70)]

/-- The initial state with monitoring already started (empty history). -/
def scenarioStart : SessionState := { SessionState.init with logged_on := true }

/-- A stopped session that still holds one stale sample in its history. -/
def preloadedState : SessionState :=
  { config := BotConfig.init, logged_on := false,
    history := [(0, 100)], last_price := none, update_counter := 0 }

/-! Helper lemmas. -/

lemma lookback_eq_none_of_le {h : List Sample} {k : Nat} (hk : h.length ≤ k) :
    lookback h k = none := by
  unfold lookback
  exact List.get?_eq_none.mpr (by simpa using hk)

lemma lookback_some_lt {h : List Sample} {k : Nat} {s : Sample}
    (hs : lookback h k = some s) : k < h.length := by
  unfold lookback at hs
  have := List.get?_eq_some.mp hs
  simpa using this.choose

lemma compare_skip_of_short (h : List Sample) (cp : ℚ) (cfg : BotConfig)
    (alerts : List Alert) (sb : Nat) (l : String) (hk : h.length ≤ sb) :
    compare h cp cfg alerts sb l = alerts := by
  unfold compare
  rw [if_neg]
  intro hc
  omega

lemma compare_not_active (h : List Sample) (cp : ℚ) (cfg : BotConfig)
    (alerts : List Alert) (sb : Nat) (l : String) (hl : l ∉ cfg.active_windows) :
    compare h cp cfg alerts sb l = alerts := by
  unfold compare
  rw [if_neg]
  intro hc
  exact hl hc.1

/-- compare only ever appends its own alert entries to the accumulator. -/
lemma compare_extend (h : List Sample) (cp : ℚ) (cfg : BotConfig)
    (alerts : List Alert) (sb : Nat) (l : String) :
    compare h cp cfg alerts sb l = alerts ++ compare h cp cfg [] sb l := by
  unfold compare
  split
  · rcases hg : h.reverse.get? sb with _ | s
    · simp [hg]
    · simp only [hg]
      split
      · split <;> simp
      · simp
  · simp

/-- A single compare produces either nothing or one entry with its own label. -/
lemma compare_nil_cases (h : List Sample) (cp : ℚ) (cfg : BotConfig)
    (sb : Nat) (l : String) :
    compare h cp cfg [] sb l = [] ∨
      ∃ p c, compare h cp cfg [] sb l = [(l, p, c)] := by
  unfold compare
  split
  · rcases hg : h.reverse.get? sb with _ | s
    · simp [hg]
    · simp only [hg]
      split
      · split
        · right
          exact ⟨s.2, (cp - s.2) / s.2, by simp⟩
        · left; rfl
      · left; rfl
  · left; rfl

lemma compare_mem_label {h : List Sample} {cp : ℚ} {cfg : BotConfig}
    {sb : Nat} {l : String} {x : Alert}
    (hx : x ∈ compare h cp cfg [] sb l) : x.1 = l := by
  rcases compare_nil_cases h cp cfg sb l with he | ⟨p, c, he⟩
  · rw [he] at hx
    cases hx
  · rw [he] at hx
    rw [List.mem_singleton.mp hx]

lemma compare_map_sublist (h : List Sample) (cp : ℚ) (cfg : BotConfig)
    (sb : Nat) (l : String) :
    List.Sublist ((compare h cp cfg [] sb l).map Prod.fst) [l] := by
  rcases compare_nil_cases h cp cfg sb l with he | ⟨p, c, he⟩
  · rw [he]
    exact List.nil_sublist _
  · rw [he]
    simp

/-- check_drops is the concatenation of the four windows' individual
compare results, in the source's fixed order. -/
lemma check_drops_decomp (h : List Sample) (now : Nat) (cp : ℚ) (cfg : BotConfig) :
    check_drops h now cp cfg
      = compare h cp cfg [] STEPS_10S "10s" ++ compare h cp cfg [] STEPS_30S "30s"
        ++ compare h cp cfg [] STEPS_1MIN "1min" ++ compare h cp cfg [] STEPS_5MIN "5min" := by
  unfold check_drops
  rw [compare_extend, compare_extend h cp cfg (compare h cp cfg (compare h cp cfg [] STEPS_10S "10s") STEPS_30S "30s"), compare_extend h cp cfg (compare h cp cfg [] STEPS_10S "10s")]

/-- appending to a HISTORY_MAXLEN-suffix is again a HISTORY_MAXLEN-suffix. -/
lemma appendH_shift (l : List Sample) (x : Sample) :
    appendH (l.drop (l.length - HISTORY_MAXLEN)) x
      = (l ++ [x]).drop (l.length + 1 - HISTORY_MAXLEN) := by
  have hN : HISTORY_MAXLEN = 32 := rfl
  unfold appendH
  by_cases hl : l.length < HISTORY_MAXLEN
  · rw [if_pos]
    · rw [Nat.sub_eq_zero_of_le (by omega), Nat.sub_eq_zero_of_le (by omega)]
      simp
    · simp only [List.length_drop]
      omega
  · rw [if_neg]
    · rw [List.drop_drop, List.drop_append_of_le_length (by omega)]
      have he : (l.length - HISTORY_MAXLEN) + 1 = l.length + 1 - HISTORY_MAXLEN := by omega
      rw [he]
    · simp only [List.length_drop]
      omega

/-- Appending a whole sequence into an empty buffer retains exactly the
most recent HISTORY_MAXLEN samples, in insertion order. -/
lemma foldl_appendH_eq (ops : List Sample) :
    ops.foldl appendH [] = ops.drop (ops.length - HISTORY_MAXLEN) := by
  induction ops using List.reverseRecOn with
  | nil => simp
  | append_singleton l x ih =>
      rw [List.foldl_append]
      simp only [List.foldl_cons, List.foldl_nil]
      rw [ih, appendH_shift]
      simp

/-! Claim theorems. -/

/-- C1: an active window whose look-back yields a sample with positive
price triggers in check_drops exactly when the relative change
(current_price - past_price) / past_price is at most -drop_threshold;
the boundary is inclusive, and a change strictly greater than the
negated threshold leaves the alerts untouched. -/
theorem drop_trigger_iff_threshold (h : List Sample) (cp : ℚ) (cfg : BotConfig)
    (alerts : List Alert) (sb : Nat) (l : String) (t : Nat) (past : ℚ)
    (hact : l ∈ cfg.active_windows) (hlb : lookback h sb = some (t, past))
    (hpos : 0 < past) :
    (compare h cp cfg alerts sb l = alerts ++ [(l, past, (cp - past) / past)]
       ↔ (cp - past) / past ≤ -cfg.drop_threshold)
    ∧ (compare h cp cfg alerts sb l = alerts
       ↔ -cfg.drop_threshold < (cp - past) / past) := by
  have hlen : sb < h.length := lookback_some_lt hlb
  unfold lookback at hlb
  unfold compare
  rw [if_pos ⟨hact, hlen⟩, hlb]
  simp only [if_pos hpos]
  by_cases hc : (cp - past) / past ≤ -cfg.drop_threshold
  · rw [if_pos hc]
    constructor
    · simp [hc]
    · constructor
      · intro he
        exfalso
        simpa using congrArg List.length he
      · intro hlt
        exact absurd hc (not_le.mpr hlt)
  · rw [if_neg hc]
    constructor
    · constructor
      · intro he
        exfalso
        simpa using congrArg List.length he
      · intro hle
        exact absurd hle hc
    · simp [not_le.mp hc]

/-- C1 witness: past 100, current 75 is a fall of exactly 25%, which
triggers at the default threshold 0.25; current 76 (a 24% fall) does not. -/
theorem drop_trigger_iff_threshold_witness :
    compare [(0,100),(1,100)] 75 BotConfig.init [] 1 "10s"
      = [("10s", 100, ((75:ℚ) - 100)/100)]
    ∧ compare [(0,100),(1,100)] 76 BotConfig.init [] 1 "10s" = [] := by
  have h75 := drop_trigger_iff_threshold [(0,100),(1,100)] 75 BotConfig.init [] 1 "10s" 0 100
    (by simp [BotConfig.init]) rfl (by norm_num)
  have h76 := drop_trigger_iff_threshold [(0,100),(1,100)] 76 BotConfig.init [] 1 "10s" 0 100
    (by simp [BotConfig.init]) rfl (by norm_num)
  constructor
  · have := h75.1.mpr (by norm_num [BotConfig.init])
    simpa using this
  · have := h76.2.mpr (by norm_num [BotConfig.init])
    simpa using this

/-- C2: when the history holds step_back or fewer samples the look-back
yields none and the window is skipped without error: the alerts
accumulator is returned unchanged.  The same holds for a history built by
appending fewer than step_back + 1 samples into an empty buffer. -/
theorem lookback_short_window_skipped (h : List Sample) (cp : ℚ) (cfg : BotConfig)
    (alerts : List Alert) (sb : Nat) (l : String) (hk : h.length ≤ sb) :
    lookback h sb = none
    ∧ compare h cp cfg alerts sb l = alerts
    ∧ (∀ ops : List Sample, ops.length ≤ sb →
        lookback (ops.foldl appendH []) sb = none
        ∧ compare (ops.foldl appendH []) cp cfg alerts sb l = alerts) := by
  refine ⟨lookback_eq_none_of_le hk, compare_skip_of_short _ _ _ _ _ _ hk, ?_⟩
  intro ops hops
  have hlen : (ops.foldl appendH []).length ≤ sb := by
    rw [foldl_appendH_eq]
    simp only [List.length_drop]
    omega
  exact ⟨lookback_eq_none_of_le hlen, compare_skip_of_short _ _ _ _ _ _ hlen⟩

/-- C2 witness: an empty history, and a one-sample history, are both
skipped by a window looking back one step. -/
theorem lookback_short_window_skipped_witness :
    lookback ([] : List Sample) 1 = none
    ∧ compare ([] : List Sample) 0 BotConfig.init [] 1 "10s" = []
    ∧ lookback ([((0:Nat), (5:ℚ))].foldl appendH []) 1 = none := by
  have h := lookback_short_window_skipped [] 0 BotConfig.init [] 1 "10s" (by decide)
  exact ⟨h.1, h.2.1, (h.2.2 [(0, 5)] (by decide)).1⟩

/-- C3 counterexample: in the spec scenario the run produces NO alert at
tick 4 — the tick handler fails on the shadowed history name before drop
detection ever runs — and even the drop-detector math on the intended
five-sample history triggers the 30s window (its 3-step look-back is in
range after five samples) as well as the 10s window, so the claimed
single 10s alert is doubly false. -/
theorem scenario_no_alert_tick4 :
    (runTicks scenarioInputs scenarioStart).2.get? 4 = some []
    ∧ ("30s", (100 : ℚ), (-(3/10) : ℚ))
        ∈ check_drops [(0,100),(1,100),(2,100),(3,100),(4,70)] 4 70 BotConfig.init
    ∧ (check_drops [(0,100),(1,100),(2,100),(3,100),(4,70)] 4 70 BotConfig.init).map Prod.fst
        ≠ ["10s"] := by
  have hev : check_drops [(0,100),(1,100),(2,100),(3,100),(4,70)] 4 70 BotConfig.init
      = [("10s", 100, -(3/10)), ("30s", 100, -(3/10))] := by
    norm_num [check_drops, compare.eq_def, BotConfig.init, STEPS_10S, STEPS_30S, STEPS_1MIN, STEPS_5MIN]
  refine ⟨rfl, ?_, ?_⟩
  · rw [hev]
    simp
  · rw [hev]
    simp

/-- C3 amended: feeding 100, 100, 100, 100, 70 at ticks 0 through 4 to a
running session with the default config produces NO alert at any tick:
each successful tick only records last_price and appends a log line,
because the tick handler's history append raises AttributeError on the
shadowed module-level name (caught by its except) before drop detection
runs — so the history never grows and the update counter never
increments.  The drop-detector math itself, applied to the intended
five-sample history, would trigger both the 10s and 30s windows (each
100 to 70, -30%), not the 10s window only. -/
theorem scenario_run_no_alerts :
    runTicks scenarioInputs scenarioStart
      = ({ config := BotConfig.init, logged_on := true, history := [],
           last_price := some 70, update_counter := 0 },
         [[], [], [], [], []])
    ∧ monitor_job 0 (Except.ok 100) scenarioStart
      = ({ scenarioStart with last_price := some 100 }, [], [(0, 100)])
    ∧ check_drops [(0,100),(1,100),(2,100),(3,100),(4,70)] 4 70 BotConfig.init
      = [("10s", 100, -(3/10)), ("30s", 100, -(3/10))] := by
  refine ⟨rfl, rfl, ?_⟩
  norm_num [check_drops, compare.eq_def, BotConfig.init, STEPS_10S, STEPS_30S, STEPS_1MIN, STEPS_5MIN]

/-- C4: for every sequence of appends into an initially empty buffer the
history length stays at most HISTORY_MAXLEN, the retained samples are
exactly the most recent HISTORY_MAXLEN in insertion order (FIFO
eviction), and HISTORY_MAXLEN is the 5min window's 30 steps plus a
margin of 2. -/
theorem history_capacity_fifo (ops : List Sample) :
    (ops.foldl appendH []).length ≤ HISTORY_MAXLEN
    ∧ ops.foldl appendH [] = ops.drop (ops.length - HISTORY_MAXLEN)
    ∧ HISTORY_MAXLEN = STEPS_5MIN + 2 := by
  refine ⟨?_, foldl_appendH_eq ops, rfl⟩
  rw [foldl_appendH_eq]
  simp only [List.length_drop]
  omega

/-- C5: update_threshold succeeds exactly when 0 < f ≤ 1; on success the
stored threshold becomes f (other fields untouched) and check_drops on
the updated config is check_drops at threshold f; on failure the config
is returned unchanged (reporting False, never throwing). -/
theorem update_threshold_valid_iff (f : ℚ) (c : BotConfig) :
    ((update_threshold f c).1 = true ↔ 0 < f ∧ f ≤ 1)
    ∧ (0 < f ∧ f ≤ 1 → (update_threshold f c).2 = { c with drop_threshold := f })
    ∧ (¬(0 < f ∧ f ≤ 1) → (update_threshold f c).2 = c)
    ∧ (0 < f ∧ f ≤ 1 → ∀ (h : List Sample) (now : Nat) (cp : ℚ),
        check_drops h now cp (update_threshold f c).2
          = check_drops h now cp { c with drop_threshold := f }) := by
  by_cases hv : 0 < f ∧ f ≤ 1
  · simp [update_threshold, hv]
  · simp [update_threshold, hv]

/-- C5 witness: 0.2 is accepted and stored; 1.5 is rejected leaving the
default config unchanged. -/
theorem update_threshold_witness :
    (update_threshold (1/5) BotConfig.init).1 = true
    ∧ (update_threshold (1/5) BotConfig.init).2.drop_threshold = 1/5
    ∧ (update_threshold (3/2) BotConfig.init).2 = BotConfig.init := by
  have h1 := update_threshold_valid_iff (1/5) BotConfig.init
  have h2 := update_threshold_valid_iff (3/2) BotConfig.init
  refine ⟨h1.1.mpr (by norm_num), ?_, h2.2.2.1 (by norm_num)⟩
  rw [h1.2.1 (by norm_num)]

/-- C6: evaluating the code at the failing input.  From a stopped session
holding a stale sample, a start command sets the session Running and then
aborts with an uncaught AttributeError from the shadowed history name:
the history is NOT cleared, last_price is untouched, nothing is replied,
no timer is armed, and the fetch outcome is never consulted — against the
claimed fetch-then-report-failure-and-remain-Stopped transition. -/
theorem logon_shadowed_crash :
    logon (Except.error "network down") preloadedState
      = ({ preloadedState with logged_on := true }, [], false, true)
    ∧ (logon (Except.error "network down") preloadedState).1.history = [(0, 100)]
    ∧ (logon (Except.error "network down") preloadedState).1.last_price = none
    ∧ (logon (Except.ok 100) preloadedState).1
        = (logon (Except.error "network down") preloadedState).1 :=
  ⟨rfl, rfl, rfl, rfl⟩

/-- C7: a start command while already Running only replies that the
session is already active: state, history, last_price and counter are all
unchanged, no fetch outcome is consulted, no timer is armed, and no
exception escapes. -/
theorem logon_already_running_noop (fetch : Except String ℚ) (s : SessionState)
    (hs : s.logged_on = true) :
    logon fetch s = (s, [Msg.reply "Ya estás logueado."], false, false) := by
  simp [logon, hs]

/-- C7 witness: a second start on a running initial session is a no-op. -/
theorem logon_already_running_noop_witness :
    logon (Except.ok 5) { SessionState.init with logged_on := true }
      = ({ SessionState.init with logged_on := true },
         [Msg.reply "Ya estás logueado."], false, false) :=
  logon_already_running_noop (Except.ok 5) _ rfl

/-- C8: a tick whose fetch fails changes nothing — same state, no message,
no log line; any number of consecutive failed ticks leaves the state
fixed, and a subsequent successful tick behaves exactly as it would have
from the original state. -/
theorem monitor_job_fetch_failure_skips (now : Nat) (e : String) (s : SessionState)
    (hs : s.logged_on = true) :
    monitor_job now (Except.error e) s = (s, [], [])
    ∧ (∀ n : Nat, (fun st => (monitor_job now (Except.error e) st).1)^[n] s = s)
    ∧ (∀ (now2 : Nat) (p : ℚ) (n : Nat),
        monitor_job now2 (Except.ok p)
            ((fun st => (monitor_job now (Except.error e) st).1)^[n] s)
          = monitor_job now2 (Except.ok p) s) := by
  have h1 : monitor_job now (Except.error e) s = (s, [], []) := by
    simp [monitor_job, hs]
  have h2 : ∀ n : Nat, (fun st => (monitor_job now (Except.error e) st).1)^[n] s = s :=
    Function.iterate_fixed (by rw [h1])
  exact ⟨h1, h2, fun now2 p n => by rw [h2 n]⟩

/-- C8 witness: a failed fetch on a running initial session is skipped. -/
theorem monitor_job_fetch_failure_skips_witness :
    monitor_job 0 (Except.error "timeout") { SessionState.init with logged_on := true }
      = ({ SessionState.init with logged_on := true }, [], []) :=
  (monitor_job_fetch_failure_skips 0 "timeout" _ rfl).1

/-- C9: check_drops is the ordered concatenation of the four windows'
individual results (10s, 30s, 1min, 5min — so triggers accumulate
independently and in canonical order), its label sequence is a sublist of
that canonical order, and a window absent from active_windows never
appears in the output. -/
theorem check_drops_canonical (h : List Sample) (now : Nat) (cp : ℚ) (cfg : BotConfig) :
    check_drops h now cp cfg
      = compare h cp cfg [] STEPS_10S "10s" ++ compare h cp cfg [] STEPS_30S "30s"
        ++ compare h cp cfg [] STEPS_1MIN "1min" ++ compare h cp cfg [] STEPS_5MIN "5min"
    ∧ List.Sublist ((check_drops h now cp cfg).map Prod.fst) ["10s", "30s", "1min", "5min"]
    ∧ ∀ (l : String) (p c : ℚ), l ∉ cfg.active_windows →
        (l, p, c) ∉ check_drops h now cp cfg := by
  refine ⟨check_drops_decomp h now cp cfg, ?_, ?_⟩
  · rw [check_drops_decomp]
    simp only [List.map_append]
    have s1 := compare_map_sublist h cp cfg STEPS_10S "10s"
    have s2 := compare_map_sublist h cp cfg STEPS_30S "30s"
    have s3 := compare_map_sublist h cp cfg STEPS_1MIN "1min"
    have s4 := compare_map_sublist h cp cfg STEPS_5MIN "5min"
    exact ((s1.append s2).append s3).append s4
  · intro l p c hact hmem
    rw [check_drops_decomp] at hmem
    rcases List.mem_append.mp hmem with h123 | h4
    · rcases List.mem_append.mp h123 with h12 | h3
      · rcases List.mem_append.mp h12 with h1 | h2
        · have hl : l = "10s" := compare_mem_label h1
          rw [hl] at hact
          rw [compare_not_active h cp cfg [] STEPS_10S "10s" hact] at h1
          cases h1
        · have hl : l = "30s" := compare_mem_label h2
          rw [hl] at hact
          rw [compare_not_active h cp cfg [] STEPS_30S "30s" hact] at h2
          cases h2
      · have hl : l = "1min" := compare_mem_label h3
        rw [hl] at hact
        rw [compare_not_active h cp cfg [] STEPS_1MIN "1min" hact] at h3
        cases h3
    · have hl : l = "5min" := compare_mem_label h4
      rw [hl] at hact
      rw [compare_not_active h cp cfg [] STEPS_5MIN "5min" hact] at h4
      cases h4

/-- C9 witness: with the 1min window disabled it never appears in the
output, even on a history where its price comparison (100 to 70, a 30%
fall) would trigger. -/
theorem check_drops_canonical_witness :
    ("1min", (100:ℚ), (-(3/10) : ℚ))
      ∉ check_drops [(0,100),(1,100),(2,100),(3,100),(4,100),(5,100),(6,100)] 6 70
          { BotConfig.init with active_windows := ["10s", "30s", "5min"] } :=
  (check_drops_canonical _ 6 70 _).2.2 "1min" 100 (-(3/10)) (by decide)

/-- C10: a tick while monitoring is disabled changes nothing regardless of
the fetch outcome — state, messages and log lines are all empty of
effect — and an arbitrarily long sequence of further ticks produces no
samples and no messages. -/
theorem monitor_job_disabled_noop (now : Nat) (fetch : Except String ℚ) (s : SessionState)
    (hs : s.logged_on = false) :
    monitor_job now fetch s = (s, [], [])
    ∧ ∀ inputs : List (Nat × Except String ℚ),
        runTicks inputs s = (s, inputs.map (fun _ => [])) := by
  have h1 : ∀ (n : Nat) (f : Except String ℚ), monitor_job n f s = (s, [], []) := by
    intro n f
    simp [monitor_job, hs]
  refine ⟨h1 now fetch, ?_⟩
  intro inputs
  induction inputs with
  | nil => rfl
  | cons hd tl ih =>
      obtain ⟨n, f⟩ := hd
      simp [runTicks, h1, ih]

/-- C10 witness: a successful fetch on a stopped initial session has no
effect. -/
theorem monitor_job_disabled_noop_witness :
    monitor_job 0 (Except.ok 100) SessionState.init = (SessionState.init, [], []) :=
  (monitor_job_disabled_noop 0 (Except.ok 100) SessionState.init rfl).1

end OxautMonitor
